import Mathlib

/-!
Shallow embedding of the `aws-go-s3` bucket wrapper.

The repository is a thin layer over the AWS S3 SDK: a `Bucket` handle
(client capability + bucket name) with one forwarding method per S3
operation, plus a functional-options package whose Put options are
unconditional field setters on the request struct.

Modelling conventions:
- Go strings are byte sequences, modelled as `List Nat` (`GoString`);
  well-formed Go strings have every byte `< 256`.
- Go pointer/interface fields that default to `nil` are `Option` fields
  defaulting to `none` (matching Go's zero value in struct literals).
- A Go call returning `(out, err)` is modelled as
  `Option Out × Option GoError`.
- Methods on the pointer receiver `*Bucket` are modelled in
  state-passing style: each returns its result paired with the receiver
  state after the call.  The source methods never assign to the
  receiver's fields, which the embedding reflects by threading the
  receiver through unchanged.
-/

/-- A Go string, as its byte sequence. -/
abbrev GoString := List Nat

/-- Byte sequence of an ASCII Lean string literal (used only for ASCII
constants such as `"aws:kms"`). -/
def strBytes (s : String) : GoString := s.toList.map Char.toNat

/-- A Go `error` value as seen by this wrapper: either a value whose
dynamic type implements `awserr.RequestFailure` (carrying an HTTP status
code), or any other error (untyped / malformed from the wrapper's point
of view). -/
inductive GoError where
  | requestFailure (code message : GoString) (statusCode : Nat) (requestID : GoString)
  | basic (code message : GoString)
  deriving DecidableEq

namespace http

/-- `net/http.StatusNotFound`. -/
def StatusNotFound : Nat := 404

end http

/-- Models the check `s3err, ok := err.(awserr.RequestFailure); ok &&
s3err.StatusCode() == http.StatusNotFound` from `ExistsObject`: the type
assertion succeeds exactly for `requestFailure` values. -/
def isNotFoundRequestFailure : GoError → Bool
  | .requestFailure _ _ statusCode _ => statusCode == http.StatusNotFound
  | .basic _ _ => false

/-- An `io.ReadSeeker` capability value, abstract up to identity. -/
structure ReadSeeker where
  id : Nat
  deriving DecidableEq

/-- An `io.ReadCloser` capability value, abstract up to identity. -/
structure ReadCloser where
  id : Nat
  deriving DecidableEq

namespace aws

/-- `aws.StringValue`: dereference a `*string`, giving `""` for `nil`. -/
def StringValue (o : Option GoString) : GoString := o.getD []

/-- An `aws.Context` value, abstract up to identity. -/
structure Context where
  id : Nat
  deriving DecidableEq

end aws

namespace request

/-- An `aws/request.Request` value, abstract up to identity. -/
structure Request where
  id : Nat
  deriving DecidableEq

end request

namespace url

/-- `net/url.shouldEscape(c, encodeQueryComponent)`: alphanumerics and
the unreserved marks `-`, `_`, `.`, `~` are kept; every other byte is
escaped in a query component. -/
def shouldEscape (c : Nat) : Bool :=
  if (97 ≤ c ∧ c ≤ 122) ∨ (65 ≤ c ∧ c ≤ 90) ∨ (48 ≤ c ∧ c ≤ 57) then false
  else if c = 45 ∨ c = 95 ∨ c = 46 ∨ c = 126 then false
  else true

/-- Byte of the upper-case hex digit for `n < 16` (`upperhex` table). -/
def upperhex (n : Nat) : Nat :=
  if n < 10 then 48 + n else 55 + n

/-- `net/url.unhex`: decode one hex-digit byte. -/
def unhex (c : Nat) : Option Nat :=
  if 48 ≤ c ∧ c ≤ 57 then some (c - 48)
  else if 97 ≤ c ∧ c ≤ 102 then some (c - 97 + 10)
  else if 65 ≤ c ∧ c ≤ 70 then some (c - 65 + 10)
  else none

/-- `net/url.QueryEscape`: space becomes `+` (byte 43), bytes that must
be escaped become `%XX` (byte 37 and two upper-case hex digits), other
bytes pass through. -/
def QueryEscape : GoString → GoString
  | [] => []
  | c :: rest =>
    if c = 32 then 43 :: QueryEscape rest
    else if shouldEscape c then
      37 :: upperhex (c / 16) :: upperhex (c % 16) :: QueryEscape rest
    else c :: QueryEscape rest

/-- `net/url.QueryUnescape`: `+` (byte 43) becomes space, `%XX` decodes
the two hex digits, a malformed `%` sequence is an error (`none`). -/
def QueryUnescape : GoString → Option GoString
  | [] => some []
  | c :: rest =>
    if c = 43 then Option.map (fun t => 32 :: t) (QueryUnescape rest)
    else if c = 37 then
      match rest with
      | h1 :: h2 :: rest2 =>
        match unhex h1, unhex h2 with
        | some a, some b => Option.map (fun t => (16 * a + b) :: t) (QueryUnescape rest2)
        | _, _ => none
      | _ => none
    else Option.map (fun t => c :: t) (QueryUnescape rest)

end url

namespace s3

/-- `s3.ObjectCannedACLPrivate`. -/
def ObjectCannedACLPrivate : GoString := strBytes "private"

/-- `s3.ObjectCannedACLPublicRead`. -/
def ObjectCannedACLPublicRead : GoString := strBytes "public-read"

/-- `s3.GetObjectInput` (the fields this wrapper and its modelled
options touch; all optional fields default to Go's zero value `nil`). -/
structure GetObjectInput where
  Bucket : Option GoString := none
  Key : Option GoString := none
  Range : Option GoString := none
  VersionId : Option GoString := none
  deriving DecidableEq

/-- `s3.HeadObjectInput`. -/
structure HeadObjectInput where
  Bucket : Option GoString := none
  Key : Option GoString := none
  VersionId : Option GoString := none
  deriving DecidableEq

/-- `s3.PutObjectInput` (the fields the wrapper and the Put options in
`bucket/option` touch). -/
structure PutObjectInput where
  Bucket : Option GoString := none
  Key : Option GoString := none
  Body : Option ReadSeeker := none
  ACL : Option GoString := none
  ContentLength : Option Int := none
  ContentType : Option GoString := none
  SSEKMSKeyId : Option GoString := none
  ServerSideEncryption : Option GoString := none
  deriving DecidableEq

/-- `s3.DeleteObjectInput` with all of its fields, so that the frame
property of `DeleteObject` (everything but `Bucket` and `Key` stays at
its zero value) is expressible. -/
structure DeleteObjectInput where
  Bucket : Option GoString := none
  BypassGovernanceRetention : Option Bool := none
  Key : Option GoString := none
  MFA : Option GoString := none
  RequestPayer : Option GoString := none
  VersionId : Option GoString := none
  deriving DecidableEq

/-- `s3.ObjectIdentifier`. -/
structure ObjectIdentifier where
  Key : Option GoString := none
  VersionId : Option GoString := none
  deriving DecidableEq

/-- `s3.Delete`. -/
structure Delete where
  Objects : List ObjectIdentifier := []
  Quiet : Option Bool := none
  deriving DecidableEq

/-- `s3.DeleteObjectsInput`. -/
structure DeleteObjectsInput where
  Bucket : Option GoString := none
  Delete : Option s3.Delete := none
  MFA : Option GoString := none
  RequestPayer : Option GoString := none
  deriving DecidableEq

/-- `s3.ListObjectsInput` (`PrefixStr` models the Go field `Prefix`). -/
structure ListObjectsInput where
  Bucket : Option GoString := none
  PrefixStr : Option GoString := none
  Delimiter : Option GoString := none
  MaxKeys : Option Int := none
  deriving DecidableEq

/-- `s3.ListObjectsV2Input` (`PrefixStr` models the Go field `Prefix`). -/
structure ListObjectsV2Input where
  Bucket : Option GoString := none
  PrefixStr : Option GoString := none
  Delimiter : Option GoString := none
  MaxKeys : Option Int := none
  deriving DecidableEq

/-- `s3.ListObjectVersionsInput` (`PrefixStr` models the Go field
`Prefix`). -/
structure ListObjectVersionsInput where
  Bucket : Option GoString := none
  PrefixStr : Option GoString := none
  Delimiter : Option GoString := none
  MaxKeys : Option Int := none
  deriving DecidableEq

/-- `s3.CopyObjectInput`. -/
structure CopyObjectInput where
  Bucket : Option GoString := none
  Key : Option GoString := none
  CopySource : Option GoString := none
  ContentType : Option GoString := none
  MetadataDirective : Option GoString := none
  deriving DecidableEq

/-- `s3.GetObjectOutput` (only the `Body` stream matters to the
wrapper, via `GetObjectReader`). -/
structure GetObjectOutput where
  Body : Option ReadCloser := none
  ETag : Option GoString := none
  deriving DecidableEq

/-- `s3.HeadObjectOutput`. -/
structure HeadObjectOutput where
  ContentLength : Option Int := none
  ETag : Option GoString := none
  deriving DecidableEq

/-- `s3.PutObjectOutput`. -/
structure PutObjectOutput where
  ETag : Option GoString := none
  deriving DecidableEq

/-- `s3.DeleteObjectOutput`. -/
structure DeleteObjectOutput where
  DeleteMarker : Option Bool := none
  VersionId : Option GoString := none
  deriving DecidableEq

/-- `s3.DeleteObjectsOutput`. -/
structure DeleteObjectsOutput where
  Deleted : List ObjectIdentifier := []
  deriving DecidableEq

/-- `s3.ListObjectsOutput`. -/
structure ListObjectsOutput where
  IsTruncated : Option Bool := none
  NextMarker : Option GoString := none
  deriving DecidableEq

/-- `s3.ListObjectsV2Output`. -/
structure ListObjectsV2Output where
  IsTruncated : Option Bool := none
  NextContinuationToken : Option GoString := none
  deriving DecidableEq

/-- `s3.ListObjectVersionsOutput`. -/
structure ListObjectVersionsOutput where
  IsTruncated : Option Bool := none
  deriving DecidableEq

/-- `s3.CopyObjectOutput`. -/
structure CopyObjectOutput where
  CopySourceVersionId : Option GoString := none
  deriving DecidableEq

end s3

namespace option

/-- `option.PutObjectInput`: an adapter changing a parameter in
`s3.PutObjectInput` (a mutator, modelled as a function on the record). -/
def PutObjectInput : Type := s3.PutObjectInput → s3.PutObjectInput

/-- `option.SSEKMSKeyID`: sets the SSE-KMS key id and the server-side
encryption mode `"aws:kms"`. -/
def SSEKMSKeyID (keyID : GoString) : PutObjectInput := fun req =>
  { req with SSEKMSKeyId := some keyID, ServerSideEncryption := some (strBytes "aws:kms") }

/-- `option.SSES3`: sets server-side encryption `"AES256"`. -/
def SSES3 : PutObjectInput := fun req =>
  { req with ServerSideEncryption := some (strBytes "AES256") }

/-- `option.ACLPrivate`. -/
def ACLPrivate : PutObjectInput := fun req =>
  { req with ACL := some s3.ObjectCannedACLPrivate }

/-- `option.ACLPublicRead`. -/
def ACLPublicRead : PutObjectInput := fun req =>
  { req with ACL := some s3.ObjectCannedACLPublicRead }

/-- `option.ContentType`. -/
def ContentType (ct : GoString) : PutObjectInput := fun req =>
  { req with ContentType := some ct }

/-- `option.ContentLength`. -/
def ContentLength (length : Int) : PutObjectInput := fun req =>
  { req with ContentLength := some length }

/-- The Put options the repository provides (the six constructors of
`bucket/option/put.go`). -/
def IsPutOption (f : PutObjectInput) : Prop :=
  (∃ k, f = SSEKMSKeyID k) ∨ f = SSES3 ∨ f = ACLPrivate ∨ f = ACLPublicRead ∨
  (∃ ct, f = ContentType ct) ∨ (∃ n, f = ContentLength n)

/-- Modelled from the spec: the repository's Get option family is not
under src/ (only the type name `option.GetObjectInput` is referenced by
the bucket methods); the spec describes these families as "analogous
per-field setters ... each new option is a one-line closure". -/
def GetObjectInput : Type := s3.GetObjectInput → s3.GetObjectInput

/-- Modelled from the spec: a one-line per-field Get setter. -/
def GetRange (v : GoString) : GetObjectInput := fun req =>
  { req with Range := some v }

/-- Modelled from the spec: a one-line per-field Get setter. -/
def GetVersionId (v : GoString) : GetObjectInput := fun req =>
  { req with VersionId := some v }

/-- The modelled Get option family. -/
def IsGetOption (f : GetObjectInput) : Prop :=
  (∃ v, f = GetRange v) ∨ (∃ v, f = GetVersionId v)

/-- Modelled from the spec: the Head option family is not under src/;
per-field setters analogous to the Put ones. -/
def HeadObjectInput : Type := s3.HeadObjectInput → s3.HeadObjectInput

/-- Modelled from the spec: a one-line per-field Head setter. -/
def HeadVersionId (v : GoString) : HeadObjectInput := fun req =>
  { req with VersionId := some v }

/-- The modelled Head option family. -/
def IsHeadOption (f : HeadObjectInput) : Prop :=
  ∃ v, f = HeadVersionId v

/-- Modelled from the spec: the List option family is not under src/;
per-field setters analogous to the Put ones. -/
def ListObjectsInput : Type := s3.ListObjectsInput → s3.ListObjectsInput

/-- Modelled from the spec: a one-line per-field List setter. -/
def ListDelimiter (v : GoString) : ListObjectsInput := fun req =>
  { req with Delimiter := some v }

/-- Modelled from the spec: a one-line per-field List setter. -/
def ListMaxKeys (n : Int) : ListObjectsInput := fun req =>
  { req with MaxKeys := some n }

/-- The modelled List option family. -/
def IsListOption (f : ListObjectsInput) : Prop :=
  (∃ v, f = ListDelimiter v) ∨ (∃ n, f = ListMaxKeys n)

/-- Modelled from the spec: the ListV2 option family is not under src/;
per-field setters analogous to the Put ones. -/
def ListObjectsV2Input : Type := s3.ListObjectsV2Input → s3.ListObjectsV2Input

/-- Modelled from the spec: a one-line per-field ListV2 setter. -/
def ListV2Delimiter (v : GoString) : ListObjectsV2Input := fun req =>
  { req with Delimiter := some v }

/-- Modelled from the spec: a one-line per-field ListV2 setter. -/
def ListV2MaxKeys (n : Int) : ListObjectsV2Input := fun req =>
  { req with MaxKeys := some n }

/-- The modelled ListV2 option family. -/
def IsListV2Option (f : ListObjectsV2Input) : Prop :=
  (∃ v, f = ListV2Delimiter v) ∨ (∃ n, f = ListV2MaxKeys n)

/-- Modelled from the spec: the ListVersions option family is not under
src/; per-field setters analogous to the Put ones. -/
def ListObjectVersionsInput : Type := s3.ListObjectVersionsInput → s3.ListObjectVersionsInput

/-- Modelled from the spec: a one-line per-field ListVersions setter. -/
def ListVersionsDelimiter (v : GoString) : ListObjectVersionsInput := fun req =>
  { req with Delimiter := some v }

/-- Modelled from the spec: a one-line per-field ListVersions setter. -/
def ListVersionsMaxKeys (n : Int) : ListObjectVersionsInput := fun req =>
  { req with MaxKeys := some n }

/-- The modelled ListVersions option family. -/
def IsListVersionsOption (f : ListObjectVersionsInput) : Prop :=
  (∃ v, f = ListVersionsDelimiter v) ∨ (∃ n, f = ListVersionsMaxKeys n)

/-- Modelled from the spec: the Copy option family is not under src/;
per-field setters analogous to the Put ones. -/
def CopyObjectInput : Type := s3.CopyObjectInput → s3.CopyObjectInput

/-- Modelled from the spec: a one-line per-field Copy setter. -/
def CopyContentType (v : GoString) : CopyObjectInput := fun req =>
  { req with ContentType := some v }

/-- Modelled from the spec: a one-line per-field Copy setter. -/
def CopyMetadataDirective (v : GoString) : CopyObjectInput := fun req =>
  { req with MetadataDirective := some v }

/-- The modelled Copy option family. -/
def IsCopyOption (f : CopyObjectInput) : Prop :=
  (∃ v, f = CopyContentType v) ∨ (∃ v, f = CopyMetadataDirective v)

end option

namespace s3iface

/-- `s3iface.S3API`, restricted to the operations this repository
calls: a record of capabilities, one per S3 call.  A Go call returning
`(out, err)` is a function into `Option Out × Option GoError`. -/
structure S3API where
  GetObject : s3.GetObjectInput → Option s3.GetObjectOutput × Option GoError
  GetObjectRequest : s3.GetObjectInput → Option request.Request × Option s3.GetObjectOutput
  HeadObject : s3.HeadObjectInput → Option s3.HeadObjectOutput × Option GoError
  PutObject : s3.PutObjectInput → Option s3.PutObjectOutput × Option GoError
  DeleteObject : s3.DeleteObjectInput → Option s3.DeleteObjectOutput × Option GoError
  DeleteObjects : s3.DeleteObjectsInput → Option s3.DeleteObjectsOutput × Option GoError
  ListObjects : s3.ListObjectsInput → Option s3.ListObjectsOutput × Option GoError
  ListObjectsV2PagesWithContext :
    aws.Context → s3.ListObjectsV2Input → (s3.ListObjectsV2Output → Bool → Bool) → Option GoError
  ListObjectVersionsPagesWithContext :
    aws.Context → s3.ListObjectVersionsInput → (s3.ListObjectVersionsOutput → Bool → Bool) → Option GoError
  CopyObject : s3.CopyObjectInput → Option s3.CopyObjectOutput × Option GoError

end s3iface

/-- Apply a list of option mutators to a request, left to right — the
`for _, f := range opts { f(req) }` loop of every bucket method. -/
def applyOpts {α : Type} (opts : List (α → α)) (r : α) : α :=
  opts.foldl (fun x f => f x) r

/-- `bucket.Bucket`: the S3 capability and the bucket name. -/
structure Bucket where
  S3 : s3iface.S3API
  Name : Option GoString

/-- `bucket.New`. -/
def New (s : s3iface.S3API) (name : GoString) : Bucket :=
  { S3 := s, Name := some name }

/-- The request `GetObject` and `GetObjectRequest` build: base request
with `Bucket` and `Key`, then the options in order. -/
def Bucket.GetObjectReq (b : Bucket) (key : GoString)
    (opts : List option.GetObjectInput) : s3.GetObjectInput :=
  applyOpts opts { Bucket := b.Name, Key := some key }

/-- `Bucket.GetObject`. -/
def Bucket.GetObject (b : Bucket) (key : GoString) (opts : List option.GetObjectInput) :
    (Option s3.GetObjectOutput × Option GoError) × Bucket :=
  (b.S3.GetObject (b.GetObjectReq key opts), b)

/-- `Bucket.GetObjectReader`: on error return `(nil, err)`; otherwise
return the response body.  (A `nil` response with a `nil` error would
fault in the source; it is modelled as no reader.) -/
def Bucket.GetObjectReader (b : Bucket) (key : GoString) (opts : List option.GetObjectInput) :
    (Option ReadCloser × Option GoError) × Bucket :=
  let r := b.GetObject key opts
  (match r.1.2 with
   | some e => (none, some e)
   | none => (r.1.1.bind fun o => o.Body, none),
   r.2)

/-- `Bucket.GetObjectRequest`: builds the same request as `GetObject`
and forwards it to the client's request constructor. -/
def Bucket.GetObjectRequest (b : Bucket) (key : GoString) (opts : List option.GetObjectInput) :
    (Option request.Request × Option s3.GetObjectOutput) × Bucket :=
  (b.S3.GetObjectRequest (b.GetObjectReq key opts), b)

/-- The request `HeadObject` builds. -/
def Bucket.HeadObjectReq (b : Bucket) (key : GoString)
    (opts : List option.HeadObjectInput) : s3.HeadObjectInput :=
  applyOpts opts { Bucket := b.Name, Key := some key }

/-- `Bucket.HeadObject`. -/
def Bucket.HeadObject (b : Bucket) (key : GoString) (opts : List option.HeadObjectInput) :
    (Option s3.HeadObjectOutput × Option GoError) × Bucket :=
  (b.S3.HeadObject (b.HeadObjectReq key opts), b)

/-- `Bucket.ExistsObject`: success means `(true, nil)`; a typed request
failure with HTTP status 404 means `(false, nil)`; any other error is
returned unchanged with `false`. -/
def Bucket.ExistsObject (b : Bucket) (key : GoString) (opts : List option.HeadObjectInput) :
    (Bool × Option GoError) × Bucket :=
  let r := b.HeadObject key opts
  (match r.1.2 with
   | none => (true, none)
   | some e => if isNotFoundRequestFailure e then (false, none) else (false, some e),
   r.2)

/-- The request `PutObject` builds. -/
def Bucket.PutObjectReq (b : Bucket) (key : GoString) (rs : ReadSeeker)
    (opts : List option.PutObjectInput) : s3.PutObjectInput :=
  applyOpts opts { Bucket := b.Name, Key := some key, Body := some rs }

/-- `Bucket.PutObject`. -/
def Bucket.PutObject (b : Bucket) (key : GoString) (rs : ReadSeeker)
    (opts : List option.PutObjectInput) :
    (Option s3.PutObjectOutput × Option GoError) × Bucket :=
  (b.S3.PutObject (b.PutObjectReq key rs opts), b)

/-- The request `DeleteObject` builds (no options; every field other
than `Bucket` and `Key` keeps its zero value). -/
def Bucket.DeleteObjectReq (b : Bucket) (key : GoString) : s3.DeleteObjectInput :=
  { Bucket := b.Name, Key := some key }

/-- `Bucket.DeleteObject`. -/
def Bucket.DeleteObject (b : Bucket) (key : GoString) :
    (Option s3.DeleteObjectOutput × Option GoError) × Bucket :=
  (b.S3.DeleteObject (b.DeleteObjectReq key), b)

/-- The request `DeleteObjects` builds: the identifier list is wrapped
verbatim, with no local validation of the batch size. -/
def Bucket.DeleteObjectsReq (b : Bucket) (identifiers : List s3.ObjectIdentifier) :
    s3.DeleteObjectsInput :=
  { Bucket := b.Name, Delete := some { Objects := identifiers } }

/-- `Bucket.DeleteObjects`. -/
def Bucket.DeleteObjects (b : Bucket) (identifiers : List s3.ObjectIdentifier) :
    (Option s3.DeleteObjectsOutput × Option GoError) × Bucket :=
  (b.S3.DeleteObjects (b.DeleteObjectsReq identifiers), b)

/-- The request `ListObjects` builds (`PrefixStr` models `Prefix`). -/
def Bucket.ListObjectsReq (b : Bucket) (pre : GoString)
    (opts : List option.ListObjectsInput) : s3.ListObjectsInput :=
  applyOpts opts { Bucket := b.Name, PrefixStr := some pre }

/-- `Bucket.ListObjects`. -/
def Bucket.ListObjects (b : Bucket) (pre : GoString) (opts : List option.ListObjectsInput) :
    (Option s3.ListObjectsOutput × Option GoError) × Bucket :=
  (b.S3.ListObjects (b.ListObjectsReq pre opts), b)

/-- The request `ListObjectsV2PagesWithContext` builds. -/
def Bucket.ListObjectsV2Req (b : Bucket) (pre : GoString)
    (opts : List option.ListObjectsV2Input) : s3.ListObjectsV2Input :=
  applyOpts opts { Bucket := b.Name, PrefixStr := some pre }

/-- `Bucket.ListObjectsV2PagesWithContext`. -/
def Bucket.ListObjectsV2PagesWithContext (b : Bucket) (ctx : aws.Context) (pre : GoString)
    (pageFunc : s3.ListObjectsV2Output → Bool → Bool)
    (opts : List option.ListObjectsV2Input) :
    Option GoError × Bucket :=
  (b.S3.ListObjectsV2PagesWithContext ctx (b.ListObjectsV2Req pre opts) pageFunc, b)

/-- The request `ListObjectVersionsPagesWithContext` builds. -/
def Bucket.ListObjectVersionsReq (b : Bucket) (pre : GoString)
    (opts : List option.ListObjectVersionsInput) : s3.ListObjectVersionsInput :=
  applyOpts opts { Bucket := b.Name, PrefixStr := some pre }

/-- `Bucket.ListObjectVersionsPagesWithContext`. -/
def Bucket.ListObjectVersionsPagesWithContext (b : Bucket) (ctx : aws.Context) (pre : GoString)
    (pageFunc : s3.ListObjectVersionsOutput → Bool → Bool)
    (opts : List option.ListObjectVersionsInput) :
    Option GoError × Bucket :=
  (b.S3.ListObjectVersionsPagesWithContext ctx (b.ListObjectVersionsReq pre opts) pageFunc, b)

/-- The request `CopyObject` builds: the copy source is the bucket name
(`aws.StringValue` of the possibly-nil name pointer), a `/` (byte 47),
and the query-escaped source key. -/
def Bucket.CopyObjectReq (b : Bucket) (dest src : GoString)
    (opts : List option.CopyObjectInput) : s3.CopyObjectInput :=
  applyOpts opts
    { Bucket := b.Name
      Key := some dest
      CopySource := some (aws.StringValue b.Name ++ 47 :: url.QueryEscape src) }

/-- `Bucket.CopyObject`. -/
def Bucket.CopyObject (b : Bucket) (dest src : GoString)
    (opts : List option.CopyObjectInput) :
    (Option s3.CopyObjectOutput × Option GoError) × Bucket :=
  (b.S3.CopyObject (b.CopyObjectReq dest src opts), b)

/-- A test double whose every capability reports nothing (`nil, nil`). -/
def testClient : s3iface.S3API :=
  { GetObject := fun _ => (none, none)
    GetObjectRequest := fun _ => (none, none)
    HeadObject := fun _ => (none, none)
    PutObject := fun _ => (none, none)
    DeleteObject := fun _ => (none, none)
    DeleteObjects := fun _ => (none, none)
    ListObjects := fun _ => (none, none)
    ListObjectsV2PagesWithContext := fun _ _ _ => none
    ListObjectVersionsPagesWithContext := fun _ _ _ => none
    CopyObject := fun _ => (none, none) }

/-- A typed request failure with HTTP status 404. -/
def err404 : GoError :=
  .requestFailure (strBytes "NotFound") (strBytes "Not Found") http.StatusNotFound (strBytes "req-1")

/-- An untyped error (no `awserr.RequestFailure` implementation). -/
def errOther : GoError := .basic (strBytes "Throttling") (strBytes "slow down")

/-- A client whose metadata fetch fails with a 404 request failure. -/
def client404 : s3iface.S3API :=
  { testClient with HeadObject := fun _ => (none, some err404) }

/-- A client whose metadata fetch fails with an untyped error. -/
def clientOtherErr : s3iface.S3API :=
  { testClient with HeadObject := fun _ => (none, some errOther) }

/-- A concrete reader value. -/
def readCloser0 : ReadCloser := { id := 0 }

/-- A concrete `GetObject` output carrying a body stream. -/
def out0 : s3.GetObjectOutput := { Body := some readCloser0 }

/-- A client whose `GetObject` reports both a non-nil output and a
non-nil error. -/
def clientBoth : s3iface.S3API :=
  { testClient with GetObject := fun _ => (some out0, some errOther) }

/-- A client whose `GetObject` fails with an untyped error. -/
def clientGetErr : s3iface.S3API :=
  { testClient with GetObject := fun _ => (none, some errOther) }

/-- A client whose `GetObject` succeeds with `out0`. -/
def clientGetOK : s3iface.S3API :=
  { testClient with GetObject := fun _ => (some out0, none) }

/-- A concrete bucket name. -/
def nameB : GoString := strBytes "bkt"

/-- A concrete object key. -/
def keyK : GoString := strBytes "k"

/-- A concrete seekable body. -/
def rs0 : ReadSeeker := { id := 0 }

/-- An identifier batch exceeding the 1000-object service limit. -/
def bigIds : List s3.ObjectIdentifier := List.replicate 1001 {}

/-- A source key containing a space, `#` and `?` — the bytes of
`"a b#c?d"`. -/
def srcSpecial : GoString := [97, 32, 98, 35, 99, 63, 100]

/-- Folding option mutators preserves any property each mutator
preserves. -/
theorem applyOpts_preserve {α : Type} (P : α → Prop) (opts : List (α → α))
    (h : ∀ f ∈ opts, ∀ r, P r → P (f r)) :
    ∀ r, P r → P (applyOpts opts r) := by
  induction opts with
  | nil => intro r hr; exact hr
  | cons f fs ih =>
    intro r hr
    have step : P (f r) := h f (List.mem_cons_self f fs) r hr
    have tail : ∀ g ∈ fs, ∀ r, P r → P (g r) :=
      fun g hg => h g (List.mem_cons_of_mem f hg)
    simpa [applyOpts] using ih tail (f r) step

/-- Every provided Put option leaves `Bucket`, `Key` and `Body`
untouched. -/
theorem putOption_frame (f : option.PutObjectInput) (h : option.IsPutOption f)
    (r : s3.PutObjectInput) :
    (f r).Bucket = r.Bucket ∧ (f r).Key = r.Key ∧ (f r).Body = r.Body := by
  rcases h with ⟨k, rfl⟩ | rfl | rfl | rfl | ⟨ct, rfl⟩ | ⟨n, rfl⟩ <;>
    exact ⟨rfl, rfl, rfl⟩

/-- Every modelled Get option leaves `Bucket` and `Key` untouched. -/
theorem getOption_frame (f : option.GetObjectInput) (h : option.IsGetOption f)
    (r : s3.GetObjectInput) :
    (f r).Bucket = r.Bucket ∧ (f r).Key = r.Key := by
  rcases h with ⟨v, rfl⟩ | ⟨v, rfl⟩ <;> exact ⟨rfl, rfl⟩

/-- Every modelled Head option leaves `Bucket` and `Key` untouched. -/
theorem headOption_frame (f : option.HeadObjectInput) (h : option.IsHeadOption f)
    (r : s3.HeadObjectInput) :
    (f r).Bucket = r.Bucket ∧ (f r).Key = r.Key := by
  rcases h with ⟨v, rfl⟩; exact ⟨rfl, rfl⟩

/-- Every modelled List option leaves `Bucket` and the prefix
untouched. -/
theorem listOption_frame (f : option.ListObjectsInput) (h : option.IsListOption f)
    (r : s3.ListObjectsInput) :
    (f r).Bucket = r.Bucket ∧ (f r).PrefixStr = r.PrefixStr := by
  rcases h with ⟨v, rfl⟩ | ⟨n, rfl⟩ <;> exact ⟨rfl, rfl⟩

/-- Every modelled ListV2 option leaves `Bucket` and the prefix
untouched. -/
theorem listV2Option_frame (f : option.ListObjectsV2Input) (h : option.IsListV2Option f)
    (r : s3.ListObjectsV2Input) :
    (f r).Bucket = r.Bucket ∧ (f r).PrefixStr = r.PrefixStr := by
  rcases h with ⟨v, rfl⟩ | ⟨n, rfl⟩ <;> exact ⟨rfl, rfl⟩

/-- Every modelled ListVersions option leaves `Bucket` and the prefix
untouched. -/
theorem listVersionsOption_frame (f : option.ListObjectVersionsInput)
    (h : option.IsListVersionsOption f) (r : s3.ListObjectVersionsInput) :
    (f r).Bucket = r.Bucket ∧ (f r).PrefixStr = r.PrefixStr := by
  rcases h with ⟨v, rfl⟩ | ⟨n, rfl⟩ <;> exact ⟨rfl, rfl⟩

/-- Every modelled Copy option leaves `Bucket`, `Key` and `CopySource`
untouched. -/
theorem copyOption_frame (f : option.CopyObjectInput) (h : option.IsCopyOption f)
    (r : s3.CopyObjectInput) :
    (f r).Bucket = r.Bucket ∧ (f r).Key = r.Key ∧ (f r).CopySource = r.CopySource := by
  rcases h with ⟨v, rfl⟩ | ⟨v, rfl⟩ <;> exact ⟨rfl, rfl, rfl⟩

/-- The result component of `ExistsObject`, unfolded. -/
theorem existsObject_fst (b : Bucket) (key : GoString) (opts : List option.HeadObjectInput) :
    (b.ExistsObject key opts).1 =
      (match (b.HeadObject key opts).1.2 with
       | none => (true, none)
       | some e => if isNotFoundRequestFailure e then (false, none) else (false, some e)) :=
  rfl

/-- The result component of `GetObjectReader`, unfolded. -/
theorem getObjectReader_fst (b : Bucket) (key : GoString) (opts : List option.GetObjectInput) :
    (b.GetObjectReader key opts).1 =
      (match (b.GetObject key opts).1.2 with
       | some e => (none, some e)
       | none => ((b.GetObject key opts).1.1.bind fun o => o.Body, none)) :=
  rfl


/-- Decoding the upper-case hex digit of `n < 16` recovers `n`. -/
theorem unhex_upperhex (n : Nat) (h : n < 16) : url.unhex (url.upperhex n) = some n := by
  interval_cases n <;> rfl

/-- A byte that survives query escaping unescaped is neither `+` nor
`%`. -/
theorem not_escaped_ne (c : Nat) (h : url.shouldEscape c = false) : c ≠ 43 ∧ c ≠ 37 := by
  refine ⟨?_, ?_⟩ <;> rintro rfl <;> revert h <;> decide

/-- `QueryUnescape` unfolded at a cons cell. -/
theorem queryUnescape_cons (c : Nat) (rest : GoString) :
    url.QueryUnescape (c :: rest) =
      if c = 43 then Option.map (fun t => 32 :: t) (url.QueryUnescape rest)
      else if c = 37 then
        (match rest with
         | h1 :: h2 :: rest2 =>
           match url.unhex h1, url.unhex h2 with
           | some a, some b => Option.map (fun t => (16 * a + b) :: t) (url.QueryUnescape rest2)
           | _, _ => none
         | _ => none)
      else Option.map (fun t => c :: t) (url.QueryUnescape rest) := by
  rw [url.QueryUnescape.eq_def]
  rfl

/-- `QueryUnescape` on a well-formed `%XX` escape decodes the two hex
digits. -/
theorem queryUnescape_escaped (h1 h2 a b : Nat) (rest2 : GoString)
    (ha : url.unhex h1 = some a) (hb : url.unhex h2 = some b) :
    url.QueryUnescape (37 :: h1 :: h2 :: rest2) =
      Option.map (fun t => (16 * a + b) :: t) (url.QueryUnescape rest2) := by
  rw [url.QueryUnescape.eq_2, if_neg (by norm_num), if_pos rfl, ha, hb]

/-- `QueryEscape` unfolded at a cons cell. -/
theorem queryEscape_cons (c : Nat) (rest : GoString) :
    url.QueryEscape (c :: rest) =
      if c = 32 then 43 :: url.QueryEscape rest
      else if url.shouldEscape c then
        37 :: url.upperhex (c / 16) :: url.upperhex (c % 16) :: url.QueryEscape rest
      else c :: url.QueryEscape rest := rfl

/-- `QueryUnescape` inverts `QueryEscape` on every byte string. -/
theorem queryUnescape_queryEscape (s : GoString) (h : ∀ c ∈ s, c < 256) :
    url.QueryUnescape (url.QueryEscape s) = some s := by
  induction s with
  | nil => rfl
  | cons c rest ih =>
    have hc : c < 256 := h c (List.mem_cons_self c rest)
    have hrest : ∀ x ∈ rest, x < 256 := fun x hx => h x (List.mem_cons_of_mem c hx)
    have ih2 := ih hrest
    by_cases h32 : c = 32
    · subst h32
      rw [queryEscape_cons, if_pos rfl, queryUnescape_cons, if_pos rfl, ih2]
      rfl
    · cases hesc : url.shouldEscape c with
      | true =>
        have hdiv : c / 16 < 16 := by omega
        have hmod : c % 16 < 16 := Nat.mod_lt _ (by omega)
        have hval : 16 * (c / 16) + c % 16 = c := by omega
        rw [queryEscape_cons, if_neg h32, if_pos hesc,
          queryUnescape_escaped _ _ _ _ _ (unhex_upperhex _ hdiv) (unhex_upperhex _ hmod),
          ih2]
        simp [hval]
      | false =>
        have hne := not_escaped_ne c hesc
        rw [queryEscape_cons, if_neg h32, if_neg (by simp [hesc]), queryUnescape_cons,
          if_neg hne.1, if_neg hne.2, ih2]
        rfl

/-- Under provided Put options, the Put request keeps its base bucket,
key and body. -/
theorem putReq_fields (b : Bucket) (key : GoString) (rs : ReadSeeker)
    (opts : List option.PutObjectInput) (h : ∀ f ∈ opts, option.IsPutOption f) :
    (b.PutObjectReq key rs opts).Bucket = b.Name ∧
    (b.PutObjectReq key rs opts).Key = some key ∧
    (b.PutObjectReq key rs opts).Body = some rs :=
  applyOpts_preserve
    (fun r => r.Bucket = b.Name ∧ r.Key = some key ∧ r.Body = some rs) opts
    (fun f hf r hr => by
      obtain ⟨h1, h2, h3⟩ := putOption_frame f (h f hf) r
      exact ⟨h1.trans hr.1, h2.trans hr.2.1, h3.trans hr.2.2⟩)
    _ ⟨rfl, rfl, rfl⟩

/-- Under modelled Get options, the Get request keeps its base bucket
and key. -/
theorem getReq_fields (b : Bucket) (key : GoString)
    (opts : List option.GetObjectInput) (h : ∀ f ∈ opts, option.IsGetOption f) :
    (b.GetObjectReq key opts).Bucket = b.Name ∧
    (b.GetObjectReq key opts).Key = some key :=
  applyOpts_preserve (fun r => r.Bucket = b.Name ∧ r.Key = some key) opts
    (fun f hf r hr => by
      obtain ⟨h1, h2⟩ := getOption_frame f (h f hf) r
      exact ⟨h1.trans hr.1, h2.trans hr.2⟩)
    _ ⟨rfl, rfl⟩

/-- Under modelled Head options, the Head request keeps its base bucket
and key. -/
theorem headReq_fields (b : Bucket) (key : GoString)
    (opts : List option.HeadObjectInput) (h : ∀ f ∈ opts, option.IsHeadOption f) :
    (b.HeadObjectReq key opts).Bucket = b.Name ∧
    (b.HeadObjectReq key opts).Key = some key :=
  applyOpts_preserve (fun r => r.Bucket = b.Name ∧ r.Key = some key) opts
    (fun f hf r hr => by
      obtain ⟨h1, h2⟩ := headOption_frame f (h f hf) r
      exact ⟨h1.trans hr.1, h2.trans hr.2⟩)
    _ ⟨rfl, rfl⟩

/-- Under modelled List options, the List request keeps its base bucket
and prefix. -/
theorem listReq_fields (b : Bucket) (pre : GoString)
    (opts : List option.ListObjectsInput) (h : ∀ f ∈ opts, option.IsListOption f) :
    (b.ListObjectsReq pre opts).Bucket = b.Name ∧
    (b.ListObjectsReq pre opts).PrefixStr = some pre :=
  applyOpts_preserve (fun r => r.Bucket = b.Name ∧ r.PrefixStr = some pre) opts
    (fun f hf r hr => by
      obtain ⟨h1, h2⟩ := listOption_frame f (h f hf) r
      exact ⟨h1.trans hr.1, h2.trans hr.2⟩)
    _ ⟨rfl, rfl⟩

/-- Under modelled ListV2 options, the ListV2 request keeps its base
bucket and prefix. -/
theorem listV2Req_fields (b : Bucket) (pre : GoString)
    (opts : List option.ListObjectsV2Input) (h : ∀ f ∈ opts, option.IsListV2Option f) :
    (b.ListObjectsV2Req pre opts).Bucket = b.Name ∧
    (b.ListObjectsV2Req pre opts).PrefixStr = some pre :=
  applyOpts_preserve (fun r => r.Bucket = b.Name ∧ r.PrefixStr = some pre) opts
    (fun f hf r hr => by
      obtain ⟨h1, h2⟩ := listV2Option_frame f (h f hf) r
      exact ⟨h1.trans hr.1, h2.trans hr.2⟩)
    _ ⟨rfl, rfl⟩

/-- Under modelled ListVersions options, the ListVersions request keeps
its base bucket and prefix. -/
theorem listVersionsReq_fields (b : Bucket) (pre : GoString)
    (opts : List option.ListObjectVersionsInput)
    (h : ∀ f ∈ opts, option.IsListVersionsOption f) :
    (b.ListObjectVersionsReq pre opts).Bucket = b.Name ∧
    (b.ListObjectVersionsReq pre opts).PrefixStr = some pre :=
  applyOpts_preserve (fun r => r.Bucket = b.Name ∧ r.PrefixStr = some pre) opts
    (fun f hf r hr => by
      obtain ⟨h1, h2⟩ := listVersionsOption_frame f (h f hf) r
      exact ⟨h1.trans hr.1, h2.trans hr.2⟩)
    _ ⟨rfl, rfl⟩

/-- Under modelled Copy options, the Copy request keeps its base
bucket, key and copy source. -/
theorem copyReq_fields (b : Bucket) (dest src : GoString)
    (opts : List option.CopyObjectInput) (h : ∀ f ∈ opts, option.IsCopyOption f) :
    (b.CopyObjectReq dest src opts).Bucket = b.Name ∧
    (b.CopyObjectReq dest src opts).Key = some dest ∧
    (b.CopyObjectReq dest src opts).CopySource =
      some (aws.StringValue b.Name ++ 47 :: url.QueryEscape src) :=
  applyOpts_preserve
    (fun r => r.Bucket = b.Name ∧ r.Key = some dest ∧
      r.CopySource = some (aws.StringValue b.Name ++ 47 :: url.QueryEscape src)) opts
    (fun f hf r hr => by
      obtain ⟨h1, h2, h3⟩ := copyOption_frame f (h f hf) r
      exact ⟨h1.trans hr.1, h2.trans hr.2.1, h3.trans hr.2.2⟩)
    _ ⟨rfl, rfl, rfl⟩

/-- C1: `ExistsObject(k, O)` returns `(true, nil)` when the underlying
`HeadObject` call succeeds; `(false, nil)` when it fails with a typed
request failure whose HTTP status code is 404; and `(false, e)` with
the error `e` unchanged for every other failure, including an untyped
one. -/
theorem ExistsObject_translates_not_found (b : Bucket) (key : GoString)
    (opts : List option.HeadObjectInput) :
    ((b.HeadObject key opts).1.2 = none → (b.ExistsObject key opts).1 = (true, none)) ∧
    (∀ e, (b.HeadObject key opts).1.2 = some e → isNotFoundRequestFailure e = true →
      (b.ExistsObject key opts).1 = (false, none)) ∧
    (∀ e, (b.HeadObject key opts).1.2 = some e → isNotFoundRequestFailure e = false →
      (b.ExistsObject key opts).1 = (false, some e)) := by
  refine ⟨?_, ?_, ?_⟩
  · intro h
    rw [existsObject_fst, h]
  · intro e h he
    rw [existsObject_fst, h]
    simp [he]
  · intro e h he
    rw [existsObject_fst, h]
    simp [he]

/-- Witness for C1: a 404 request failure becomes `(false, nil)`, an
untyped error is propagated with `false`, success becomes
`(true, nil)`. -/
theorem ExistsObject_translates_not_found_witness :
    ((New client404 nameB).ExistsObject keyK []).1 = (false, none) ∧
    ((New clientOtherErr nameB).ExistsObject keyK []).1 = (false, some errOther) ∧
    ((New testClient nameB).ExistsObject keyK []).1 = (true, none) :=
  ⟨(ExistsObject_translates_not_found (New client404 nameB) keyK []).2.1 err404 rfl rfl,
   (ExistsObject_translates_not_found (New clientOtherErr nameB) keyK []).2.2 errOther rfl rfl,
   (ExistsObject_translates_not_found (New testClient nameB) keyK []).1 rfl⟩

/-- C2: `PutObject(k, rs, O)` forwards a request built from the base
(bucket name, key `k`, body `rs`) by applying the options of `O` left
to right; the provided Put options leave those three fields intact. -/
theorem PutObject_request_fields_and_order (b : Bucket) (key : GoString) (rs : ReadSeeker)
    (opts : List option.PutObjectInput) (h : ∀ f ∈ opts, option.IsPutOption f) :
    b.PutObject key rs opts = (b.S3.PutObject (b.PutObjectReq key rs opts), b) ∧
    b.PutObjectReq key rs opts =
      opts.foldl (fun r f => f r) { Bucket := b.Name, Key := some key, Body := some rs } ∧
    (b.PutObjectReq key rs opts).Bucket = b.Name ∧
    (b.PutObjectReq key rs opts).Key = some key ∧
    (b.PutObjectReq key rs opts).Body = some rs := by
  obtain ⟨h1, h2, h3⟩ := putReq_fields b key rs opts h
  exact ⟨rfl, rfl, h1, h2, h3⟩

/-- Witness for C2 with one provided option. -/
theorem PutObject_request_fields_and_order_witness :
    ((New testClient nameB).PutObjectReq keyK rs0
      [option.ContentType (strBytes "text/plain")]).Key = some keyK :=
  (PutObject_request_fields_and_order (New testClient nameB) keyK rs0
    [option.ContentType (strBytes "text/plain")]
    (by
      intro f hf
      rw [List.mem_singleton] at hf
      subst hf
      exact Or.inr (Or.inr (Or.inr (Or.inr (Or.inl ⟨strBytes "text/plain", rfl⟩)))))).2.2.2.1

/-- C3: the request `CopyObject(dst, src, O)` forwards carries
`CopySource = bucketName ++ "/" ++ QueryEscape src` (byte 47 is `/`),
and query unescaping recovers every source key from its escaped form. -/
theorem CopyObject_copysource_and_roundtrip :
    (∀ (b : Bucket) (dest src : GoString) (opts : List option.CopyObjectInput),
      (∀ f ∈ opts, option.IsCopyOption f) →
      b.CopyObject dest src opts = (b.S3.CopyObject (b.CopyObjectReq dest src opts), b) ∧
      (b.CopyObjectReq dest src opts).CopySource =
        some (aws.StringValue b.Name ++ 47 :: url.QueryEscape src)) ∧
    (∀ (cl : s3iface.S3API) (n dest src : GoString) (opts : List option.CopyObjectInput),
      (∀ f ∈ opts, option.IsCopyOption f) →
      ((New cl n).CopyObjectReq dest src opts).CopySource =
        some (n ++ 47 :: url.QueryEscape src)) ∧
    (∀ src : GoString, (∀ c ∈ src, c < 256) →
      url.QueryUnescape (url.QueryEscape src) = some src) := by
  refine ⟨?_, ?_, queryUnescape_queryEscape⟩
  · intro b dest src opts h
    exact ⟨rfl, (copyReq_fields b dest src opts h).2.2⟩
  · intro cl n dest src opts h
    exact (copyReq_fields (New cl n) dest src opts h).2.2

/-- Witness for C3: a source key containing a space, `#` and `?`
round-trips, and the copy source of a concrete request is the bucket
name, a slash, and the escaped key. -/
theorem CopyObject_copysource_and_roundtrip_witness :
    url.QueryUnescape (url.QueryEscape srcSpecial) = some srcSpecial ∧
    ((New testClient nameB).CopyObjectReq keyK srcSpecial []).CopySource =
      some (nameB ++ 47 :: url.QueryEscape srcSpecial) :=
  ⟨CopyObject_copysource_and_roundtrip.2.2 srcSpecial (by decide),
   CopyObject_copysource_and_roundtrip.2.1 testClient nameB keyK srcSpecial []
     (fun f hf => absurd hf (List.not_mem_nil f))⟩

/-- C4: two Put options assigning the same field compose to the
later-applied value — each is an unconditional assignment (shown for
content type, content length, the two ACL settings, the KMS key id,
and through `PutObject` itself). -/
theorem put_options_last_write_wins (r : s3.PutObjectInput) (a bct : GoString)
    (m n : Int) (k1 k2 : GoString) (b : Bucket) (key : GoString) (rs : ReadSeeker) :
    (option.ContentType bct (option.ContentType a r)).ContentType = some bct ∧
    (option.ContentLength n (option.ContentLength m r)).ContentLength = some n ∧
    (option.ACLPublicRead (option.ACLPrivate r)).ACL = some s3.ObjectCannedACLPublicRead ∧
    (option.ACLPrivate (option.ACLPublicRead r)).ACL = some s3.ObjectCannedACLPrivate ∧
    (option.SSEKMSKeyID k2 (option.SSEKMSKeyID k1 r)).SSEKMSKeyId = some k2 ∧
    (b.PutObjectReq key rs [option.ContentType a, option.ContentType bct]).ContentType
      = some bct :=
  ⟨rfl, rfl, rfl, rfl, rfl, rfl⟩

/-- Counterexample for C5 as stated: `GetObjectReader` is an operation
method other than `ExistsObject`, yet it does not return the underlying
client's result unchanged — with a client whose `GetObject` reports a
non-nil output together with a non-nil error, the underlying call's
result is `some out0` while `GetObjectReader` returns a nil reader
(the non-nil output is dropped, and on success it would return the
output's `Body` field rather than the output). -/
theorem GetObjectReader_changes_result_counterexample :
    (clientBoth.GetObject ((New clientBoth nameB).GetObjectReq keyK [])).1 = some out0 ∧
    ((New clientBoth nameB).GetObjectReader keyK []).1.1 = none ∧
    some out0 ≠ (none : Option s3.GetObjectOutput) :=
  ⟨rfl, rfl, Option.some_ne_none out0⟩

/-- C5 (amended): every operation method except `ExistsObject` and
`GetObjectReader` returns the underlying client's result and error
unchanged — in particular `DeleteObjects` forwards batches larger than
1000 identifiers with no local validation; `GetObjectReader` forwards
the error unchanged but projects the `Body` stream out of the result
on success and returns a nil reader on error. -/
theorem operations_pass_through_amended (b : Bucket) :
    (∀ (key : GoString) (opts : List option.GetObjectInput),
      b.GetObject key opts = (b.S3.GetObject (b.GetObjectReq key opts), b)) ∧
    (∀ (key : GoString) (opts : List option.GetObjectInput),
      b.GetObjectRequest key opts = (b.S3.GetObjectRequest (b.GetObjectReq key opts), b)) ∧
    (∀ (key : GoString) (opts : List option.HeadObjectInput),
      b.HeadObject key opts = (b.S3.HeadObject (b.HeadObjectReq key opts), b)) ∧
    (∀ (key : GoString) (rs : ReadSeeker) (opts : List option.PutObjectInput),
      b.PutObject key rs opts = (b.S3.PutObject (b.PutObjectReq key rs opts), b)) ∧
    (∀ key : GoString,
      b.DeleteObject key = (b.S3.DeleteObject (b.DeleteObjectReq key), b)) ∧
    (∀ ids : List s3.ObjectIdentifier,
      b.DeleteObjects ids = (b.S3.DeleteObjects (b.DeleteObjectsReq ids), b)) ∧
    (∀ ids : List s3.ObjectIdentifier, 1000 < ids.length →
      b.DeleteObjects ids = (b.S3.DeleteObjects (b.DeleteObjectsReq ids), b)) ∧
    (∀ (pre : GoString) (opts : List option.ListObjectsInput),
      b.ListObjects pre opts = (b.S3.ListObjects (b.ListObjectsReq pre opts), b)) ∧
    (∀ (ctx : aws.Context) (pre : GoString) (pf : s3.ListObjectsV2Output → Bool → Bool)
      (opts : List option.ListObjectsV2Input),
      b.ListObjectsV2PagesWithContext ctx pre pf opts =
        (b.S3.ListObjectsV2PagesWithContext ctx (b.ListObjectsV2Req pre opts) pf, b)) ∧
    (∀ (ctx : aws.Context) (pre : GoString) (pf : s3.ListObjectVersionsOutput → Bool → Bool)
      (opts : List option.ListObjectVersionsInput),
      b.ListObjectVersionsPagesWithContext ctx pre pf opts =
        (b.S3.ListObjectVersionsPagesWithContext ctx (b.ListObjectVersionsReq pre opts) pf, b)) ∧
    (∀ (dest src : GoString) (opts : List option.CopyObjectInput),
      b.CopyObject dest src opts = (b.S3.CopyObject (b.CopyObjectReq dest src opts), b)) ∧
    (∀ (key : GoString) (opts : List option.GetObjectInput) (e : GoError),
      (b.GetObject key opts).1.2 = some e →
      (b.GetObjectReader key opts).1 = (none, some e)) ∧
    (∀ (key : GoString) (opts : List option.GetObjectInput) (out : s3.GetObjectOutput),
      (b.GetObject key opts).1 = (some out, none) →
      (b.GetObjectReader key opts).1 = (out.Body, none)) := by
  refine ⟨fun key opts => rfl, fun key opts => rfl, fun key opts => rfl,
    fun key rs opts => rfl, fun key => rfl, fun ids => rfl, fun ids _ => rfl,
    fun pre opts => rfl, fun ctx pre pf opts => rfl, fun ctx pre pf opts => rfl,
    fun dest src opts => rfl, ?_, ?_⟩
  · intro key opts e h
    rw [getObjectReader_fst, h]
  · intro key opts out h
    have h2 : (b.GetObject key opts).1.2 = none := by rw [h]
    have h1 : (b.GetObject key opts).1.1 = some out := by rw [h]
    rw [getObjectReader_fst, h2, h1]
    rfl

/-- Witness for C5 (amended): an over-limit batch is forwarded as-is,
and `GetObjectReader` behaves as described on an error and on a
success. -/
theorem operations_pass_through_amended_witness :
    1000 < bigIds.length ∧
    (New testClient nameB).DeleteObjects bigIds =
      (testClient.DeleteObjects ((New testClient nameB).DeleteObjectsReq bigIds),
        New testClient nameB) ∧
    ((New clientGetErr nameB).GetObjectReader keyK []).1 = (none, some errOther) ∧
    ((New clientGetOK nameB).GetObjectReader keyK []).1 = (out0.Body, none) := by
  have hlen : 1000 < bigIds.length := by
    have h1001 : bigIds.length = 1001 := by
      unfold bigIds
      exact List.length_replicate _ _
    omega
  refine ⟨hlen, ?_, ?_, ?_⟩
  · exact (operations_pass_through_amended
      (New testClient nameB)).2.2.2.2.2.2.1 bigIds hlen
  · exact (operations_pass_through_amended
      (New clientGetErr nameB)).2.2.2.2.2.2.2.2.2.2.2.1 keyK [] errOther rfl
  · exact (operations_pass_through_amended
      (New clientGetOK nameB)).2.2.2.2.2.2.2.2.2.2.2.2 keyK [] out0 rfl

/-- C6: every request-building operation sets the bucket name and the
key/prefix in the base request before any option runs, and every option
of the provided families leaves those fields unchanged, so the forwarded
request always carries them.  (`GetObjectReq` is the request both
`GetObject` and `GetObjectRequest` forward.) -/
theorem requests_carry_bucket_and_key :
    (∀ (b : Bucket) (key : GoString) (opts : List option.GetObjectInput),
      (∀ f ∈ opts, option.IsGetOption f) →
      (b.GetObjectReq key opts).Bucket = b.Name ∧
      (b.GetObjectReq key opts).Key = some key) ∧
    (∀ (b : Bucket) (key : GoString) (opts : List option.HeadObjectInput),
      (∀ f ∈ opts, option.IsHeadOption f) →
      (b.HeadObjectReq key opts).Bucket = b.Name ∧
      (b.HeadObjectReq key opts).Key = some key) ∧
    (∀ (b : Bucket) (key : GoString) (rs : ReadSeeker) (opts : List option.PutObjectInput),
      (∀ f ∈ opts, option.IsPutOption f) →
      (b.PutObjectReq key rs opts).Bucket = b.Name ∧
      (b.PutObjectReq key rs opts).Key = some key) ∧
    (∀ (b : Bucket) (pre : GoString) (opts : List option.ListObjectsInput),
      (∀ f ∈ opts, option.IsListOption f) →
      (b.ListObjectsReq pre opts).Bucket = b.Name ∧
      (b.ListObjectsReq pre opts).PrefixStr = some pre) ∧
    (∀ (b : Bucket) (pre : GoString) (opts : List option.ListObjectsV2Input),
      (∀ f ∈ opts, option.IsListV2Option f) →
      (b.ListObjectsV2Req pre opts).Bucket = b.Name ∧
      (b.ListObjectsV2Req pre opts).PrefixStr = some pre) ∧
    (∀ (b : Bucket) (pre : GoString) (opts : List option.ListObjectVersionsInput),
      (∀ f ∈ opts, option.IsListVersionsOption f) →
      (b.ListObjectVersionsReq pre opts).Bucket = b.Name ∧
      (b.ListObjectVersionsReq pre opts).PrefixStr = some pre) ∧
    (∀ (b : Bucket) (dest src : GoString) (opts : List option.CopyObjectInput),
      (∀ f ∈ opts, option.IsCopyOption f) →
      (b.CopyObjectReq dest src opts).Bucket = b.Name ∧
      (b.CopyObjectReq dest src opts).Key = some dest) := by
  refine ⟨getReq_fields, headReq_fields, ?_, listReq_fields, listV2Req_fields,
    listVersionsReq_fields, ?_⟩
  · intro b key rs opts h
    exact ⟨(putReq_fields b key rs opts h).1, (putReq_fields b key rs opts h).2.1⟩
  · intro b dest src opts h
    exact ⟨(copyReq_fields b dest src opts h).1, (copyReq_fields b dest src opts h).2.1⟩

/-- Witness for C6: one provided option per family, on a concrete
bucket. -/
theorem requests_carry_bucket_and_key_witness :
    ((New testClient nameB).GetObjectReq keyK [option.GetRange (strBytes "bytes=0-1")]).Bucket
      = some nameB ∧
    ((New testClient nameB).HeadObjectReq keyK [option.HeadVersionId (strBytes "v1")]).Key
      = some keyK ∧
    ((New testClient nameB).PutObjectReq keyK rs0 [option.SSES3]).Bucket = some nameB ∧
    ((New testClient nameB).ListObjectsReq keyK [option.ListDelimiter (strBytes "/")]).PrefixStr
      = some keyK ∧
    ((New testClient nameB).ListObjectsV2Req keyK [option.ListV2MaxKeys 5]).Bucket
      = some nameB ∧
    ((New testClient nameB).ListObjectVersionsReq keyK
      [option.ListVersionsDelimiter (strBytes "/")]).PrefixStr = some keyK ∧
    ((New testClient nameB).CopyObjectReq keyK keyK
      [option.CopyContentType (strBytes "text/plain")]).Key = some keyK := by
  refine ⟨?_, ?_, ?_, ?_, ?_, ?_, ?_⟩
  · exact (requests_carry_bucket_and_key.1 (New testClient nameB) keyK
      [option.GetRange (strBytes "bytes=0-1")]
      (by
        intro f hf
        rw [List.mem_singleton] at hf
        subst hf
        exact Or.inl ⟨strBytes "bytes=0-1", rfl⟩)).1
  · exact (requests_carry_bucket_and_key.2.1 (New testClient nameB) keyK
      [option.HeadVersionId (strBytes "v1")]
      (by
        intro f hf
        rw [List.mem_singleton] at hf
        subst hf
        exact ⟨strBytes "v1", rfl⟩)).2
  · exact (requests_carry_bucket_and_key.2.2.1 (New testClient nameB) keyK rs0
      [option.SSES3]
      (by
        intro f hf
        rw [List.mem_singleton] at hf
        subst hf
        exact Or.inr (Or.inl rfl))).1
  · exact (requests_carry_bucket_and_key.2.2.2.1 (New testClient nameB) keyK
      [option.ListDelimiter (strBytes "/")]
      (by
        intro f hf
        rw [List.mem_singleton] at hf
        subst hf
        exact Or.inl ⟨strBytes "/", rfl⟩)).2
  · exact (requests_carry_bucket_and_key.2.2.2.2.1 (New testClient nameB) keyK
      [option.ListV2MaxKeys 5]
      (by
        intro f hf
        rw [List.mem_singleton] at hf
        subst hf
        exact Or.inr ⟨5, rfl⟩)).1
  · exact (requests_carry_bucket_and_key.2.2.2.2.2.1 (New testClient nameB) keyK
      [option.ListVersionsDelimiter (strBytes "/")]
      (by
        intro f hf
        rw [List.mem_singleton] at hf
        subst hf
        exact Or.inl ⟨strBytes "/", rfl⟩)).2
  · exact (requests_carry_bucket_and_key.2.2.2.2.2.2 (New testClient nameB) keyK keyK
      [option.CopyContentType (strBytes "text/plain")]
      (by
        intro f hf
        rw [List.mem_singleton] at hf
        subst hf
        exact Or.inl ⟨strBytes "text/plain", rfl⟩)).2

/-- C7: `DeleteObjects` with an empty identifier list forwards a
well-formed empty-batch request (bucket set, `Delete.Objects` empty)
and returns whatever the client returns — no local short-circuit. -/
theorem DeleteObjects_empty_forwarded (b : Bucket) :
    b.DeleteObjects [] =
      (b.S3.DeleteObjects { Bucket := b.Name, Delete := some { Objects := [] } }, b) ∧
    (b.DeleteObjectsReq []).Delete = some { Objects := ([] : List s3.ObjectIdentifier) } :=
  ⟨rfl, rfl⟩

/-- C8: the request `DeleteObject(key)` forwards has exactly `Bucket`
and `Key` set; every other field keeps its zero value (the method
accepts no options). -/
theorem DeleteObject_request_frame (b : Bucket) (key : GoString) :
    b.DeleteObject key = (b.S3.DeleteObject (b.DeleteObjectReq key), b) ∧
    (b.DeleteObjectReq key).Bucket = b.Name ∧
    (b.DeleteObjectReq key).Key = some key ∧
    (b.DeleteObjectReq key).BypassGovernanceRetention = none ∧
    (b.DeleteObjectReq key).MFA = none ∧
    (b.DeleteObjectReq key).RequestPayer = none ∧
    (b.DeleteObjectReq key).VersionId = none :=
  ⟨rfl, rfl, rfl, rfl, rfl, rfl, rfl⟩

/-- C9: `New(client, name)` yields a handle with exactly those fields,
and no operation method changes the handle — the receiver state after
every call equals the receiver state before. -/
theorem bucket_handle_immutable :
    (∀ (s : s3iface.S3API) (n : GoString), (New s n).S3 = s ∧ (New s n).Name = some n) ∧
    (∀ (b : Bucket) (key : GoString) (opts : List option.GetObjectInput),
      (b.GetObject key opts).2 = b) ∧
    (∀ (b : Bucket) (key : GoString) (opts : List option.GetObjectInput),
      (b.GetObjectReader key opts).2 = b) ∧
    (∀ (b : Bucket) (key : GoString) (opts : List option.GetObjectInput),
      (b.GetObjectRequest key opts).2 = b) ∧
    (∀ (b : Bucket) (key : GoString) (opts : List option.HeadObjectInput),
      (b.HeadObject key opts).2 = b) ∧
    (∀ (b : Bucket) (key : GoString) (opts : List option.HeadObjectInput),
      (b.ExistsObject key opts).2 = b) ∧
    (∀ (b : Bucket) (key : GoString) (rs : ReadSeeker) (opts : List option.PutObjectInput),
      (b.PutObject key rs opts).2 = b) ∧
    (∀ (b : Bucket) (key : GoString), (b.DeleteObject key).2 = b) ∧
    (∀ (b : Bucket) (ids : List s3.ObjectIdentifier), (b.DeleteObjects ids).2 = b) ∧
    (∀ (b : Bucket) (pre : GoString) (opts : List option.ListObjectsInput),
      (b.ListObjects pre opts).2 = b) ∧
    (∀ (b : Bucket) (ctx : aws.Context) (pre : GoString)
      (pf : s3.ListObjectsV2Output → Bool → Bool) (opts : List option.ListObjectsV2Input),
      (b.ListObjectsV2PagesWithContext ctx pre pf opts).2 = b) ∧
    (∀ (b : Bucket) (ctx : aws.Context) (pre : GoString)
      (pf : s3.ListObjectVersionsOutput → Bool → Bool)
      (opts : List option.ListObjectVersionsInput),
      (b.ListObjectVersionsPagesWithContext ctx pre pf opts).2 = b) ∧
    (∀ (b : Bucket) (dest src : GoString) (opts : List option.CopyObjectInput),
      (b.CopyObject dest src opts).2 = b) :=
  ⟨fun _ _ => ⟨rfl, rfl⟩, fun _ _ _ => rfl, fun _ _ _ => rfl,
   fun _ _ _ => rfl, fun _ _ _ => rfl, fun _ _ _ => rfl,
   fun _ _ _ _ => rfl, fun _ _ => rfl, fun _ _ => rfl,
   fun _ _ _ => rfl, fun _ _ _ _ _ => rfl,
   fun _ _ _ _ _ => rfl, fun _ _ _ _ => rfl⟩

/-- C10: `SSEKMSKeyID(k)` sets both the key id and the encryption mode
`"aws:kms"`; `SSES3` sets only the encryption mode `"AES256"`; applying
`SSEKMSKeyID(k)` then `SSES3` leaves the mode at `"AES256"` but keeps
the stale key id `k`. -/
theorem sse_options_interaction (r : s3.PutObjectInput) (k : GoString) :
    (option.SSEKMSKeyID k r).SSEKMSKeyId = some k ∧
    (option.SSEKMSKeyID k r).ServerSideEncryption = some (strBytes "aws:kms") ∧
    (option.SSES3 r).ServerSideEncryption = some (strBytes "AES256") ∧
    (option.SSES3 r).SSEKMSKeyId = r.SSEKMSKeyId ∧
    (option.SSES3 (option.SSEKMSKeyID k r)).ServerSideEncryption = some (strBytes "AES256") ∧
    (option.SSES3 (option.SSEKMSKeyID k r)).SSEKMSKeyId = some k :=
  ⟨rfl, rfl, rfl, rfl, rfl, rfl⟩
